import Mathlib

/-!
Shallow embedding of the core of the dark-run-android repository:
the pure game engine (types.ts, levels.ts, engine.ts) and the stereo
tone synthesis of StereoAudio.ts, together with theorems settling the
specification claims about them.

JS `number` values that the engine keeps integral (scores, counters,
intervals) are modelled as `Int`/`Nat`; screen positions and speeds are
modelled as `ℚ` (exact rational arithmetic in place of IEEE doubles).
-/

/-- `type Lane = 'left' | 'right'` from types.ts. -/
inductive Lane where
  | left
  | right
deriving DecidableEq, Repr

/-- `type OperationType = '+' | '-' | '×' | '÷'` from types.ts. -/
inductive OperationType where
  | plus   -- '+'
  | minus  -- '-'
  | times  -- '×'
  | divide -- '÷'
deriving DecidableEq, Repr

/-- `interface Operation` from types.ts. -/
structure Operation where
  type : OperationType
  value : Int
  display : String
  speech : String
deriving DecidableEq, Repr

/-- `interface FallingObject` from types.ts. -/
structure FallingObject where
  id : String
  lane : Lane
  operation : Operation
  y : ℚ
  announced : Bool
  speed : ℚ
deriving DecidableEq, Repr

/-- `interface GameState` from types.ts. -/
structure GameState where
  score : Int
  targetScore : Int
  level : Nat
  playerLane : Lane
  objects : List FallingObject
  gameOver : Bool
  levelComplete : Bool
  isPaused : Bool
  objectsCollected : Nat
  objectsMissed : Nat
deriving DecidableEq, Repr

/-- `interface LevelConfig` from types.ts. -/
structure LevelConfig where
  level : Nat
  targetScore : Int
  description : String
  speechDescription : String
  availableOperations : List Operation
  spawnIntervalMs : Int
  objectSpeed : ℚ
deriving DecidableEq, Repr

/-- The symbol character of an operation type (the `type` literal in the
source, used by `op` for the `display` text). -/
def typeSymbol : OperationType → String
  | .plus => "+"
  | .minus => "-"
  | .times => "×"
  | .divide => "÷"

/-- The `typeWords` record inside `op` in levels.ts. -/
def typeWords : OperationType → String
  | .plus => "plus"
  | .minus => "minus"
  | .times => "times"
  | .divide => "divided by"

/-- `function op(type, value)` from levels.ts. -/
def op (type : OperationType) (value : Int) : Operation :=
  { type := type
    value := value
    display := typeSymbol type ++ toString value
    speech := typeWords type ++ " " ++ toString value }

/-- JavaScript `Math.round`: round half toward positive infinity,
`Math.round(x) = ⌊x + 1/2⌋` (exact on the rational model). -/
def jsRound (q : ℚ) : Int := ⌊q + 1/2⌋

/-- `function applyOperation(score, operation)` from engine.ts. -/
def applyOperation (score : Int) (operation : Operation) : Int :=
  match operation.type with
  | .plus => score + operation.value
  | .minus => score - operation.value
  | .times => score * operation.value
  | .divide =>
      if operation.value = 0 then score
      else jsRound ((score : ℚ) / (operation.value : ℚ))

/-- `createInitialState(levelConfig)` from engine.ts (the module-level
`idCounter` reset only affects `spawnObject`'s id generation, which is
not part of the returned state). -/
def createInitialState (levelConfig : LevelConfig) : GameState :=
  { score := 0
    targetScore := levelConfig.targetScore
    level := levelConfig.level
    playerLane := .left
    objects := []
    gameOver := false
    levelComplete := false
    isPaused := false
    objectsCollected := 0
    objectsMissed := 0 }

/-- `const PLAYER_Y = 0.85` from engine.ts. -/
def PLAYER_Y : ℚ := 85/100

/-- `const COLLISION_THRESHOLD = 0.04` from engine.ts. -/
def COLLISION_THRESHOLD : ℚ := 4/100

/-- The collision test of the loop body of `tick` in engine.ts:
`!obj.announced && Math.abs(newY - PLAYER_Y) < COLLISION_THRESHOLD &&
obj.lane === state.playerLane`, with `newY = obj.y + obj.speed`. -/
def Collides (playerLane : Lane) (obj : FallingObject) : Prop :=
  obj.announced = false ∧
    |obj.y + obj.speed - PLAYER_Y| < COLLISION_THRESHOLD ∧
    obj.lane = playerLane

instance (playerLane : Lane) (obj : FallingObject) :
    Decidable (Collides playerLane obj) := by
  unfold Collides; infer_instance

/-- The mutable loop state of `tick` in engine.ts: the local bindings
`score`, `gameOver`, `levelComplete`, `objectsCollected`,
`objectsMissed` and the array `updatedObjects` being built. -/
structure TickAcc where
  score : Int
  gameOver : Bool
  levelComplete : Bool
  objectsCollected : Nat
  objectsMissed : Nat
  updatedObjects : List FallingObject
deriving DecidableEq, Repr

/-- One iteration of the `for (const obj of objects)` loop of `tick` in
engine.ts: collect the object (applying its operation and evaluating the
win/lose checks on the running score), or count it as missed when it
passed `1.1`, or keep it with its position advanced by its speed. -/
def tickStep (playerLane : Lane) (targetScore : Int)
    (acc : TickAcc) (obj : FallingObject) : TickAcc :=
  let newY := obj.y + obj.speed
  if Collides playerLane obj then
    let score := applyOperation acc.score obj.operation
    { acc with
      score := score
      objectsCollected := acc.objectsCollected + 1
      levelComplete := acc.levelComplete || decide (targetScore ≤ score)
      gameOver := acc.gameOver || decide (score < -20) }
  else if 11/10 < newY then
    { acc with objectsMissed := acc.objectsMissed + 1 }
  else
    { acc with updatedObjects := acc.updatedObjects ++ [{ obj with y := newY }] }

/-- `tick(state)` from engine.ts. -/
def tick (state : GameState) : GameState :=
  if state.gameOver || state.levelComplete || state.isPaused then state
  else
    let acc := state.objects.foldl (tickStep state.playerLane state.targetScore)
      { score := state.score
        gameOver := false
        levelComplete := false
        objectsCollected := state.objectsCollected
        objectsMissed := state.objectsMissed
        updatedObjects := [] }
    { state with
      score := acc.score
      objects := acc.updatedObjects
      objectsCollected := acc.objectsCollected
      objectsMissed := acc.objectsMissed
      gameOver := acc.gameOver
      levelComplete := acc.levelComplete }

/-- `export const LEVELS: LevelConfig[]` from levels.ts. -/
def LEVELS : List LevelConfig :=
  [ { level := 1
      targetScore := 10
      description := "Reach 10"
      speechDescription := "Reach a score of 10. Only addition!"
      availableOperations := [op .plus 1, op .plus 2, op .plus 3]
      spawnIntervalMs := 2500
      objectSpeed := 4/1000 }
  , { level := 2
      targetScore := 15
      description := "Reach 15"
      speechDescription := "Reach 15. Watch out for minus operations!"
      availableOperations :=
        [op .plus 1, op .plus 2, op .plus 3, op .minus 1, op .minus 2]
      spawnIntervalMs := 2200
      objectSpeed := 5/1000 }
  , { level := 3
      targetScore := 20
      description := "Reach 20"
      speechDescription := "Reach 20. Plus and minus, getting faster!"
      availableOperations :=
        [op .plus 2, op .plus 3, op .plus 5, op .minus 1, op .minus 2, op .minus 3]
      spawnIntervalMs := 2000
      objectSpeed := 6/1000 }
  , { level := 4
      targetScore := 30
      description := "Reach 30"
      speechDescription := "Reach 30. Multiply is here!"
      availableOperations :=
        [op .plus 2, op .plus 3, op .plus 5, op .minus 2, op .minus 3, op .times 2]
      spawnIntervalMs := 1800
      objectSpeed := 6/1000 }
  , { level := 5
      targetScore := 50
      description := "Reach 50"
      speechDescription := "Reach 50. All operations available!"
      availableOperations :=
        [op .plus 3, op .plus 5, op .plus 10, op .minus 2, op .minus 5,
         op .times 2, op .times 3, op .divide 2]
      spawnIntervalMs := 1600
      objectSpeed := 7/1000 }
  , { level := 6
      targetScore := 100
      description := "Reach 100"
      speechDescription := "Reach 100. Fast and furious!"
      availableOperations :=
        [op .plus 5, op .plus 10, op .plus 15, op .minus 3, op .minus 5,
         op .minus 10, op .times 2, op .times 3, op .divide 2]
      spawnIntervalMs := 1400
      objectSpeed := 8/1000 } ]

/-- Placeholder for the out-of-range array read `LEVELS[level - 1]`
performed by the JS source when `level = 0` (which yields `undefined`
there); unreachable for any `level ≥ 1`. -/
def undefinedLevel : LevelConfig :=
  { level := 0, targetScore := 0, description := "", speechDescription := ""
    availableOperations := [], spawnIntervalMs := 0, objectSpeed := 0 }

/-- `getLevelConfig(level)` from levels.ts. -/
def getLevelConfig (level : Nat) : LevelConfig :=
  if level ≤ LEVELS.length then
    LEVELS.getD (level - 1) undefinedLevel
  else
    let lastLevel := LEVELS.getD (LEVELS.length - 1) undefinedLevel
    let scaleFactor : Int := (level : Int) - (LEVELS.length : Int)
    { lastLevel with
      level := level
      targetScore := lastLevel.targetScore + scaleFactor * 50
      description := "Reach " ++ toString (lastLevel.targetScore + scaleFactor * 50)
      speechDescription :=
        "Reach " ++ toString (lastLevel.targetScore + scaleFactor * 50)
          ++ ". Extreme difficulty!"
      spawnIntervalMs := max 800 (lastLevel.spawnIntervalMs - scaleFactor * 100)
      objectSpeed := min (15/1000) (lastLevel.objectSpeed + (scaleFactor : ℚ) * (1/1000)) }

/-- `movePlayer(state, lane)` from engine.ts. -/
def movePlayer (state : GameState) (lane : Lane) : GameState :=
  if state.gameOver || state.levelComplete then state
  else { state with playerLane := lane }

/-- `addObject(state, obj)` from engine.ts. -/
def addObject (state : GameState) (obj : FallingObject) : GameState :=
  { state with objects := state.objects ++ [obj] }

/-!
Characterization vocabulary for `tick`: the objects a tick collects,
misses and keeps, and the running score after each collision, in
processing order.
-/

/-- Advancing one object by its speed (`{ ...obj, y: newY }`). -/
def moveDown (obj : FallingObject) : FallingObject :=
  { obj with y := obj.y + obj.speed }

/-- The objects of a list that the tick loop collects, in order. -/
def collectedObjs (playerLane : Lane) (objs : List FallingObject) :
    List FallingObject :=
  objs.filter fun o => decide (Collides playerLane o)

/-- An object the tick loop counts as missed: it does not collide and
its advanced position passed `1.1`. -/
def MissedOut (playerLane : Lane) (o : FallingObject) : Prop :=
  ¬ Collides playerLane o ∧ 11/10 < o.y + o.speed

instance (playerLane : Lane) (o : FallingObject) :
    Decidable (MissedOut playerLane o) := by
  unfold MissedOut; infer_instance

/-- An object the tick loop keeps falling: neither collected nor past
the bottom. -/
def KeptIn (playerLane : Lane) (o : FallingObject) : Prop :=
  ¬ Collides playerLane o ∧ ¬ (11/10 < o.y + o.speed)

instance (playerLane : Lane) (o : FallingObject) :
    Decidable (KeptIn playerLane o) := by
  unfold KeptIn; infer_instance

/-- The objects of a list that the tick loop counts as missed. -/
def missedObjs (playerLane : Lane) (objs : List FallingObject) :
    List FallingObject :=
  objs.filter fun o => decide (MissedOut playerLane o)

/-- The objects of a list that the tick loop keeps. -/
def keptObjs (playerLane : Lane) (objs : List FallingObject) :
    List FallingObject :=
  objs.filter fun o => decide (KeptIn playerLane o)

/-- The running score after each successive operation of a list is
applied, in order (one entry per operation). -/
def scoresAfter (score : Int) : List Operation → List Int
  | [] => []
  | o :: ops => applyOperation score o :: scoresAfter (applyOperation score o) ops

/-- A state on which `tick` actually runs its object loop: neither
terminal nor paused. -/
def Live (s : GameState) : Prop :=
  s.gameOver = false ∧ s.levelComplete = false ∧ s.isPaused = false

instance (s : GameState) : Decidable (Live s) := by
  unfold Live; infer_instance

/-- The game states reachable from some initial state through the
engine's state-transition operations `tick`, `movePlayer` and
`addObject`. -/
inductive Reachable : GameState → Prop where
  | init (cfg : LevelConfig) : Reachable (createInitialState cfg)
  | step_tick {s : GameState} : Reachable s → Reachable (tick s)
  | step_move {s : GameState} (lane : Lane) : Reachable s → Reachable (movePlayer s lane)
  | step_add {s : GameState} (obj : FallingObject) : Reachable s → Reachable (addObject s obj)

/-!
Stereo tone synthesis, from `generateStereoWav` in StereoAudio.ts (the
`generateStereoWavDataUri` variant in src/audio/StereoAudio.ts contains
the identical sample-generation loop).  The oscillator waveform
`Math.sin(2 * Math.PI * frequency * t)` is a transcendental function
evaluated in floating point; it is abstracted here as a parameter
`rawSample : Nat → ℚ` giving the raw oscillator value at each sample
index — the source evaluates the very same expression for every pan
setting, so one parameter serves all three.
-/

/-- The pan argument `pan: Lane | 'center'` of `generateStereoWav`. -/
inductive Pan where
  | left
  | right
  | center
deriving DecidableEq, Repr

/-- The fade-in/fade-out envelope computed in the sample loop of
`generateStereoWav`; `numSamples - fadeSamples` is JS number
subtraction, hence compared over `Int`. -/
def envelope (numSamples fadeSamples i : Nat) : ℚ :=
  if i < fadeSamples then (i : ℚ) / (fadeSamples : ℚ)
  else if (numSamples : Int) - (fadeSamples : Int) < (i : Int) then
    ((numSamples : ℚ) - (i : ℚ)) / (fadeSamples : ℚ)
  else 1

/-- The `leftSample`/`rightSample` pair chosen by the `pan` branch of
`generateStereoWav`, before 16-bit quantization. -/
def channelPair (pan : Pan) (sample : ℚ) : ℚ × ℚ :=
  match pan with
  | .left => (sample, sample * (1/10))
  | .right => (sample * (1/10), sample)
  | .center => (sample, sample)

/-- The per-index pre-quantization stereo sample pairs of
`generateStereoWav`: `sample = rawSample * envelope * 0.6`, panned. -/
def stereoSamplesPre (rawSample : Nat → ℚ) (numSamples fadeSamples : Nat)
    (pan : Pan) : List (ℚ × ℚ) :=
  (List.range numSamples).map fun i =>
    channelPair pan (rawSample i * envelope numSamples fadeSamples i * (6/10))

/-- `Math.floor(x * 32767)`, the 16-bit quantization applied to each
channel sample by `generateStereoWav` before `setInt16`. -/
def quantize16 (x : ℚ) : Int := ⌊x * 32767⌋

/-- The 16-bit sample pairs written to the data chunk of the WAV buffer
by `generateStereoWav` (left value, right value, in index order). -/
def stereoSamples (rawSample : Nat → ℚ) (numSamples fadeSamples : Nat)
    (pan : Pan) : List (Int × Int) :=
  (stereoSamplesPre rawSample numSamples fadeSamples pan).map fun p =>
    (quantize16 p.1, quantize16 p.2)

/-- `numSamples = Math.floor((sampleRate * durationMs) / 1000)` and
`fadeSamples = Math.floor((sampleRate * fadeMs) / 1000)` with
`fadeMs = 10`, from `generateStereoWav`; the sample pairs of the
generated buffer for a given pan. -/
def generateStereoWavSamples (rawSample : Nat → ℚ) (durationMs sampleRate : Nat)
    (pan : Pan) : List (Int × Int) :=
  stereoSamples rawSample (sampleRate * durationMs / 1000)
    (sampleRate * 10 / 1000) pan


/-!
Concrete test data: objects placed one tick above the collision band of
a level-1 game (target score 10, player starting in the left lane), and
the states they give rise to.
-/

/-- A `+10` object in the left lane whose next step enters the collision
band (`|0.84 - 0.85| < 0.04`). -/
def objPlus10 : FallingObject :=
  { id := "obj_1", lane := .left, operation := op .plus 10
    y := 83/100, announced := false, speed := 1/100 }

/-- A `-6` object in the left lane whose next step enters the collision
band. -/
def objMinus6 : FallingObject :=
  { id := "obj_2", lane := .left, operation := op .minus 6
    y := 83/100, announced := false, speed := 1/100 }

/-- A `-31` object in the left lane whose next step enters the collision
band. -/
def objMinus31 : FallingObject :=
  { id := "obj_3", lane := .left, operation := op .minus 31
    y := 83/100, announced := false, speed := 1/100 }

/-- An already-announced object in the left lane whose next step would
enter the collision band. -/
def ghostObj : FallingObject :=
  { id := "obj_4", lane := .left, operation := op .plus 10
    y := 83/100, announced := true, speed := 1/100 }

/-- A level-1 game holding a `+10` and then a `-6` object, both about to
be collected in the same tick. -/
def crossState : GameState :=
  addObject (addObject (createInitialState (getLevelConfig 1)) objPlus10) objMinus6

/-- The state after the tick that collects `+10` (crossing the target
score 10) and then `-31` (dropping the running score to `-21`). -/
def bothState : GameState :=
  tick (addObject (addObject (createInitialState (getLevelConfig 1)) objPlus10) objMinus31)

/-- A level-1 game holding one already-announced object. -/
def ghostState : GameState :=
  addObject (createInitialState (getLevelConfig 1)) ghostObj

/-- A freshly created level-1 game, paused. -/
def pausedState : GameState :=
  { createInitialState (getLevelConfig 1) with isPaused := true }

theorem foldl_tickStep_score (pl : Lane) (tgt : Int) :
    ∀ (objs : List FallingObject) (acc : TickAcc),
      (objs.foldl (tickStep pl tgt) acc).score =
        ((collectedObjs pl objs).map (·.operation)).foldl applyOperation acc.score
  | [], acc => by simp [collectedObjs]
  | o :: objs, acc => by
      rw [List.foldl_cons, foldl_tickStep_score pl tgt objs]
      by_cases hc : Collides pl o
      · simp only [collectedObjs, List.filter_cons, decide_eq_true hc]
        simp [tickStep, hc, collectedObjs]
      · have : (decide (Collides pl o)) = false := decide_eq_false hc
        simp only [collectedObjs, List.filter_cons, this]
        by_cases hm : (11:ℚ)/10 < o.y + o.speed
        · simp [tickStep, hc, hm, collectedObjs]
        · simp [tickStep, hc, hm, collectedObjs]

theorem foldl_tickStep_collected (pl : Lane) (tgt : Int) :
    ∀ (objs : List FallingObject) (acc : TickAcc),
      (objs.foldl (tickStep pl tgt) acc).objectsCollected =
        acc.objectsCollected + (collectedObjs pl objs).length
  | [], acc => by simp [collectedObjs]
  | o :: objs, acc => by
      rw [List.foldl_cons, foldl_tickStep_collected pl tgt objs]
      by_cases hc : Collides pl o
      · simp only [collectedObjs, List.filter_cons, decide_eq_true hc]
        simp [tickStep, hc, collectedObjs, Nat.add_assoc, Nat.add_comm 1]
      · have : (decide (Collides pl o)) = false := decide_eq_false hc
        simp only [collectedObjs, List.filter_cons, this]
        by_cases hm : (11:ℚ)/10 < o.y + o.speed
        · simp [tickStep, hc, hm, collectedObjs]
        · simp [tickStep, hc, hm, collectedObjs]

theorem foldl_tickStep_missed (pl : Lane) (tgt : Int) :
    ∀ (objs : List FallingObject) (acc : TickAcc),
      (objs.foldl (tickStep pl tgt) acc).objectsMissed =
        acc.objectsMissed + (missedObjs pl objs).length
  | [], acc => by simp [missedObjs]
  | o :: objs, acc => by
      rw [List.foldl_cons, foldl_tickStep_missed pl tgt objs]
      by_cases hc : Collides pl o
      · have hnm : ¬ MissedOut pl o := fun h => h.1 hc
        simp only [missedObjs, List.filter_cons, decide_eq_false hnm]
        simp [tickStep, hc, missedObjs]
      · by_cases hm : (11:ℚ)/10 < o.y + o.speed
        · have hmo : MissedOut pl o := ⟨hc, hm⟩
          simp only [missedObjs, List.filter_cons, decide_eq_true hmo]
          simp [tickStep, hc, hm, missedObjs, Nat.add_assoc, Nat.add_comm 1]
        · have hnm : ¬ MissedOut pl o := fun h => hm h.2
          simp only [missedObjs, List.filter_cons, decide_eq_false hnm]
          simp [tickStep, hc, hm, missedObjs]

theorem foldl_tickStep_objects (pl : Lane) (tgt : Int) :
    ∀ (objs : List FallingObject) (acc : TickAcc),
      (objs.foldl (tickStep pl tgt) acc).updatedObjects =
        acc.updatedObjects ++ (keptObjs pl objs).map moveDown
  | [], acc => by simp [keptObjs]
  | o :: objs, acc => by
      rw [List.foldl_cons, foldl_tickStep_objects pl tgt objs]
      by_cases hc : Collides pl o
      · have hnk : ¬ KeptIn pl o := fun h => h.1 hc
        simp only [keptObjs, List.filter_cons, decide_eq_false hnk]
        simp [tickStep, hc, keptObjs]
      · by_cases hm : (11:ℚ)/10 < o.y + o.speed
        · have hnk : ¬ KeptIn pl o := fun h => h.2 hm
          simp only [keptObjs, List.filter_cons, decide_eq_false hnk]
          simp [tickStep, hc, hm, keptObjs]
        · have hk : KeptIn pl o := ⟨hc, hm⟩
          simp only [keptObjs, List.filter_cons, decide_eq_true hk]
          simp [tickStep, hc, hm, keptObjs, moveDown]

theorem foldl_tickStep_levelComplete (pl : Lane) (tgt : Int) :
    ∀ (objs : List FallingObject) (acc : TickAcc),
      (objs.foldl (tickStep pl tgt) acc).levelComplete =
        (acc.levelComplete ||
          (scoresAfter acc.score ((collectedObjs pl objs).map (·.operation))).any
            fun s => decide (tgt ≤ s))
  | [], acc => by simp [collectedObjs, scoresAfter]
  | o :: objs, acc => by
      rw [List.foldl_cons, foldl_tickStep_levelComplete pl tgt objs]
      by_cases hc : Collides pl o
      · simp only [collectedObjs, List.filter_cons, decide_eq_true hc]
        simp [tickStep, hc, collectedObjs, scoresAfter, Bool.or_assoc]
      · have : (decide (Collides pl o)) = false := decide_eq_false hc
        simp only [collectedObjs, List.filter_cons, this]
        by_cases hm : (11:ℚ)/10 < o.y + o.speed
        · simp [tickStep, hc, hm, collectedObjs]
        · simp [tickStep, hc, hm, collectedObjs]

theorem foldl_tickStep_gameOver (pl : Lane) (tgt : Int) :
    ∀ (objs : List FallingObject) (acc : TickAcc),
      (objs.foldl (tickStep pl tgt) acc).gameOver =
        (acc.gameOver ||
          (scoresAfter acc.score ((collectedObjs pl objs).map (·.operation))).any
            fun s => decide (s < -20))
  | [], acc => by simp [collectedObjs, scoresAfter]
  | o :: objs, acc => by
      rw [List.foldl_cons, foldl_tickStep_gameOver pl tgt objs]
      by_cases hc : Collides pl o
      · simp only [collectedObjs, List.filter_cons, decide_eq_true hc]
        simp [tickStep, hc, collectedObjs, scoresAfter, Bool.or_assoc]
      · have : (decide (Collides pl o)) = false := decide_eq_false hc
        simp only [collectedObjs, List.filter_cons, this]
        by_cases hm : (11:ℚ)/10 < o.y + o.speed
        · simp [tickStep, hc, hm, collectedObjs]
        · simp [tickStep, hc, hm, collectedObjs]

/-- Full characterization of one live tick: the score is the fold of the
collected operations, collected/missed counters advance by the collected
and missed object counts, the surviving objects are exactly the kept
ones moved down, and each end flag is set exactly when the running score
crosses its threshold after some collision of the tick. -/
theorem tick_eq_of_live (s : GameState) (h : Live s) :
    tick s =
      { s with
        score := ((collectedObjs s.playerLane s.objects).map (·.operation)).foldl
          applyOperation s.score
        objects := (keptObjs s.playerLane s.objects).map moveDown
        objectsCollected :=
          s.objectsCollected + (collectedObjs s.playerLane s.objects).length
        objectsMissed :=
          s.objectsMissed + (missedObjs s.playerLane s.objects).length
        levelComplete :=
          (scoresAfter s.score ((collectedObjs s.playerLane s.objects).map
            (·.operation))).any fun sc => decide (s.targetScore ≤ sc)
        gameOver :=
          (scoresAfter s.score ((collectedObjs s.playerLane s.objects).map
            (·.operation))).any fun sc => decide (sc < -20) } := by
  obtain ⟨h1, h2, h3⟩ := h
  unfold tick
  rw [if_neg (by simp [h1, h2, h3])]
  have hs := foldl_tickStep_score s.playerLane s.targetScore s.objects
    { score := s.score, gameOver := false, levelComplete := false
      objectsCollected := s.objectsCollected, objectsMissed := s.objectsMissed
      updatedObjects := [] }
  have hc := foldl_tickStep_collected s.playerLane s.targetScore s.objects
    { score := s.score, gameOver := false, levelComplete := false
      objectsCollected := s.objectsCollected, objectsMissed := s.objectsMissed
      updatedObjects := [] }
  have hm := foldl_tickStep_missed s.playerLane s.targetScore s.objects
    { score := s.score, gameOver := false, levelComplete := false
      objectsCollected := s.objectsCollected, objectsMissed := s.objectsMissed
      updatedObjects := [] }
  have ho := foldl_tickStep_objects s.playerLane s.targetScore s.objects
    { score := s.score, gameOver := false, levelComplete := false
      objectsCollected := s.objectsCollected, objectsMissed := s.objectsMissed
      updatedObjects := [] }
  have hl := foldl_tickStep_levelComplete s.playerLane s.targetScore s.objects
    { score := s.score, gameOver := false, levelComplete := false
      objectsCollected := s.objectsCollected, objectsMissed := s.objectsMissed
      updatedObjects := [] }
  have hg := foldl_tickStep_gameOver s.playerLane s.targetScore s.objects
    { score := s.score, gameOver := false, levelComplete := false
      objectsCollected := s.objectsCollected, objectsMissed := s.objectsMissed
      updatedObjects := [] }
  simp only at hs hc hm ho hl hg
  simp [hs, hc, hm, ho, hl, hg]

/-- `tick` short-circuits on a terminal or paused state. -/
theorem tick_of_not_live (s : GameState)
    (h : s.gameOver = true ∨ s.levelComplete = true ∨ s.isPaused = true) :
    tick s = s := by
  unfold tick
  rcases h with h | h | h <;> rw [if_pos (by simp [h])]

/-- `movePlayer` short-circuits on a terminal state. -/
theorem movePlayer_of_terminal (s : GameState) (lane : Lane)
    (h : s.gameOver = true ∨ s.levelComplete = true) :
    movePlayer s lane = s := by
  unfold movePlayer
  rcases h with h | h <;> rw [if_pos (by simp [h])]
theorem crossState_eq :
    crossState =
      { score := 0, targetScore := 10, level := 1, playerLane := .left
        objects := [objPlus10, objMinus6], gameOver := false
        levelComplete := false, isPaused := false, objectsCollected := 0
        objectsMissed := 0 } := rfl

theorem collides_objPlus10 : Collides .left objPlus10 :=
  ⟨rfl, by norm_num [objPlus10, PLAYER_Y, COLLISION_THRESHOLD, abs_lt], rfl⟩

theorem collides_objMinus6 : Collides .left objMinus6 :=
  ⟨rfl, by norm_num [objMinus6, PLAYER_Y, COLLISION_THRESHOLD, abs_lt], rfl⟩

theorem collides_objMinus31 : Collides .left objMinus31 :=
  ⟨rfl, by norm_num [objMinus31, PLAYER_Y, COLLISION_THRESHOLD, abs_lt], rfl⟩

theorem not_collides_ghostObj (lane : Lane) : ¬ Collides lane ghostObj :=
  fun h => by simpa [ghostObj] using h.1

theorem tick_crossState :
    tick crossState =
      { score := 4, targetScore := 10, level := 1, playerLane := .left
        objects := [], gameOver := false, levelComplete := true
        isPaused := false, objectsCollected := 2, objectsMissed := 0 } := by
  rw [crossState_eq]
  rw [tick_eq_of_live _ ⟨rfl, rfl, rfl⟩]
  have h1 : collectedObjs Lane.left [objPlus10, objMinus6] = [objPlus10, objMinus6] := by
    simp [collectedObjs, List.filter, decide_eq_true collides_objPlus10,
      decide_eq_true collides_objMinus6]
  have h2 : keptObjs Lane.left [objPlus10, objMinus6] = [] := by
    simp [keptObjs, List.filter,
      decide_eq_false (fun k : KeptIn Lane.left objPlus10 => k.1 collides_objPlus10),
      decide_eq_false (fun k : KeptIn Lane.left objMinus6 => k.1 collides_objMinus6)]
  have h3 : missedObjs Lane.left [objPlus10, objMinus6] = [] := by
    simp [missedObjs, List.filter,
      decide_eq_false (fun k : MissedOut Lane.left objPlus10 => k.1 collides_objPlus10),
      decide_eq_false (fun k : MissedOut Lane.left objMinus6 => k.1 collides_objMinus6)]
  have hops : List.map (fun o => o.operation) [objPlus10, objMinus6] =
      [op .plus 10, op .minus 6] := rfl
  simp only [h1, h2, h3, hops]
  norm_num [scoresAfter, applyOperation, op]

theorem bothState_eq :
    bothState =
      { score := -21, targetScore := 10, level := 1, playerLane := .left
        objects := [], gameOver := true, levelComplete := true
        isPaused := false, objectsCollected := 2, objectsMissed := 0 } := by
  have hpre : addObject (addObject (createInitialState (getLevelConfig 1)) objPlus10)
      objMinus31 =
      { score := 0, targetScore := 10, level := 1, playerLane := .left
        objects := [objPlus10, objMinus31], gameOver := false
        levelComplete := false, isPaused := false, objectsCollected := 0
        objectsMissed := 0 } := rfl
  rw [bothState, hpre, tick_eq_of_live _ ⟨rfl, rfl, rfl⟩]
  have h1 : collectedObjs Lane.left [objPlus10, objMinus31] = [objPlus10, objMinus31] := by
    simp [collectedObjs, List.filter, decide_eq_true collides_objPlus10,
      decide_eq_true collides_objMinus31]
  have h2 : keptObjs Lane.left [objPlus10, objMinus31] = [] := by
    simp [keptObjs, List.filter,
      decide_eq_false (fun k : KeptIn Lane.left objPlus10 => k.1 collides_objPlus10),
      decide_eq_false (fun k : KeptIn Lane.left objMinus31 => k.1 collides_objMinus31)]
  have h3 : missedObjs Lane.left [objPlus10, objMinus31] = [] := by
    simp [missedObjs, List.filter,
      decide_eq_false (fun k : MissedOut Lane.left objPlus10 => k.1 collides_objPlus10),
      decide_eq_false (fun k : MissedOut Lane.left objMinus31 => k.1 collides_objMinus31)]
  have hops : List.map (fun o => o.operation) [objPlus10, objMinus31] =
      [op .plus 10, op .minus 31] := rfl
  simp only [h1, h2, h3, hops]
  norm_num [scoresAfter, applyOperation, op]

/-- Claim C4: for every integer score `s` and operand `v`,
`applyOperation` returns `s+v` for add, `s-v` for subtract, `s*v` for
multiply, and for a divide operation with operand `0` it returns `s`
unchanged (it never divides by zero). -/
theorem claim_C4 (s v : Int) (d sp : String) :
    applyOperation s { type := .plus, value := v, display := d, speech := sp } = s + v
    ∧ applyOperation s { type := .minus, value := v, display := d, speech := sp } = s - v
    ∧ applyOperation s { type := .times, value := v, display := d, speech := sp } = s * v
    ∧ applyOperation s { type := .divide, value := 0, display := d, speech := sp } = s :=
  ⟨rfl, rfl, rfl, by simp [applyOperation]⟩

/-- Claim C5: `tick` returns a gameOver, levelComplete or paused state
unchanged (structurally equal, field by field). -/
theorem claim_C5 (s : GameState)
    (h : s.gameOver = true ∨ s.levelComplete = true ∨ s.isPaused = true) :
    tick s = s :=
  tick_of_not_live s h

/-- Witness for C5 at the concrete paused level-1 state. -/
theorem claim_C5_witness :
    (pausedState.gameOver = true ∨ pausedState.levelComplete = true ∨
      pausedState.isPaused = true) ∧ tick pausedState = pausedState :=
  ⟨Or.inr (Or.inr rfl), claim_C5 pausedState (Or.inr (Or.inr rfl))⟩

/-- Counterexample to claim C3: the divide operation rounds half-integer
quotients toward positive infinity, so `applyOperation(-3, {divide, 2})`
(`-1.5`) returns `-1`, while both rounding rules permitted by the claim
(ties away from zero, ties to even) require `-2`. -/
theorem claim_C3_counterexample :
    applyOperation (-3) (op .divide 2) = -1 ∧
      applyOperation (-3) (op .divide 2) ≠ -2 := by
  constructor <;> norm_num [applyOperation, op, jsRound]

/-- Claim C3 as amended: for `d > 0`, the divide operation returns
`score / d` rounded to the nearest integer with halves rounded toward
positive infinity (JavaScript `Math.round`), i.e. the unique integer `n`
with `d*(2n-1) ≤ 2s < d*(2n+1)`; so `5 / 2 = 2.5` rounds to `3` and
`-3 / 2 = -1.5` rounds to `-1`, not to `-2` as either of the rules named
by the claim would give. -/
theorem claim_C3 (s d : Int) (disp sp : String) (hd : 0 < d) :
    d * (2 * applyOperation s { type := .divide, value := d, display := disp, speech := sp } - 1)
        ≤ 2 * s
    ∧ 2 * s <
      d * (2 * applyOperation s { type := .divide, value := d, display := disp, speech := sp } + 1) := by
  have hd0 : ¬ d = 0 := by omega
  simp only [applyOperation, if_neg hd0, jsRound]
  set q : ℚ := (s : ℚ) / (d : ℚ) with hq
  have hdq : (0 : ℚ) < (d : ℚ) := by exact_mod_cast hd
  have hqd : q * (d : ℚ) = (s : ℚ) := div_mul_cancel₀ _ (ne_of_gt hdq)
  have h1 : ((⌊q + 1/2⌋ : Int) : ℚ) ≤ q + 1/2 := Int.floor_le _
  have h2 : q + 1/2 < (⌊q + 1/2⌋ : Int) + 1 := Int.lt_floor_add_one _
  constructor
  · have key : ((d : ℚ)) * (2 * (⌊q + 1/2⌋ : Int) - 1) ≤ 2 * (s : ℚ) := by
      nlinarith [mul_le_mul_of_nonneg_right h1 (le_of_lt hdq)]
    exact_mod_cast key
  · have key : 2 * (s : ℚ) < ((d : ℚ)) * (2 * (⌊q + 1/2⌋ : Int) + 1) := by
      nlinarith [mul_lt_mul_of_pos_right h2 hdq]
    exact_mod_cast key

/-- Witness for the amended C3 at `s = 5`, `d = 2` (the half-integer
case `2.5`, which rounds to `3`). -/
theorem claim_C3_witness :
    (0 : Int) < 2 ∧
      applyOperation 5 (op .divide 2) = 3 ∧
      ((2 : Int) * (2 * applyOperation 5 (op .divide 2) - 1) ≤ 2 * 5
        ∧ 2 * 5 <
          (2 : Int) * (2 * applyOperation 5 (op .divide 2) + 1)) :=
  ⟨by decide, by norm_num [applyOperation, op, jsRound],
    claim_C3 5 2 (typeSymbol .divide ++ toString (2 : Int))
      (typeWords .divide ++ " " ++ toString (2 : Int)) (by decide)⟩

/-- Claim C7: for every level number `N` beyond the 6-entry table,
`getLevelConfig N` follows the linear scaling formula exactly with
`scaleFactor = N - 6`: `targetScore = 100 + scaleFactor*50`,
`spawnIntervalMs = max 800 (1400 - scaleFactor*100)`,
`objectSpeed = min 0.015 (0.008 + scaleFactor*0.001)`. -/
theorem claim_C7 (N : Nat) (h : 6 < N) :
    (getLevelConfig N).targetScore = 100 + ((N : Int) - 6) * 50
    ∧ (getLevelConfig N).spawnIntervalMs = max 800 (1400 - ((N : Int) - 6) * 100)
    ∧ (getLevelConfig N).objectSpeed =
        min (15/1000) (8/1000 + (((N : Int) - 6) : ℚ) * (1/1000)) := by
  have hlen : LEVELS.length = 6 := rfl
  have hn : ¬ N ≤ LEVELS.length := by omega
  rw [getLevelConfig, if_neg hn]
  refine ⟨?_, ?_, ?_⟩ <;> simp [hlen, LEVELS]

/-- Witness for C7 at `N = 7`: target 150, interval 1300, speed 0.009
(the values named by the claim). -/
theorem claim_C7_witness :
    6 < 7 ∧
      (getLevelConfig 7).targetScore = 150 ∧
      (getLevelConfig 7).spawnIntervalMs = 1300 ∧
      (getLevelConfig 7).objectSpeed = 9/1000 := by
  have h := claim_C7 7 (by decide)
  obtain ⟨h1, h2, h3⟩ := h
  refine ⟨by decide, ?_, ?_, ?_⟩
  · rw [h1]; decide
  · rw [h2]; decide
  · rw [h3]; norm_num

/-- Counterexample to claim C1: in a live level-1 state (target 10)
holding a `+10` and then a `-6` object that are both collected in the
same tick, the tick ends with score 4 — strictly below the target — yet
`levelComplete` is true, because the win check ran against the running
score after the first collision, not against the end-of-tick score. -/
theorem claim_C1_counterexample :
    (crossState.gameOver = false ∧ crossState.levelComplete = false ∧
      crossState.isPaused = false)
    ∧ (tick crossState).levelComplete = true
    ∧ (tick crossState).score = 4
    ∧ (tick crossState).targetScore = 10
    ∧ ¬ ((tick crossState).targetScore ≤ (tick crossState).score) := by
  rw [tick_crossState]
  refine ⟨⟨rfl, rfl, rfl⟩, rfl, rfl, rfl, by decide⟩

/-- Claim C1 as amended: on a live state, `tick` evaluates the win/lose
checks after each individual collision rather than once at end of tick:
`levelComplete` ends true exactly when the running score directly after
some collision of the tick is `≥ targetScore`, and `gameOver` ends true
exactly when the running score directly after some collision is
`< -20`. -/
theorem claim_C1 (s : GameState) (h : Live s) :
    (tick s).levelComplete =
      ((scoresAfter s.score ((collectedObjs s.playerLane s.objects).map
        (fun o => o.operation))).any fun sc => decide (s.targetScore ≤ sc))
    ∧ (tick s).gameOver =
      ((scoresAfter s.score ((collectedObjs s.playerLane s.objects).map
        (fun o => o.operation))).any fun sc => decide (sc < -20)) := by
  rw [tick_eq_of_live s h]
  exact ⟨rfl, rfl⟩

/-- Witness for the amended C1 at the concrete two-collision state. -/
theorem claim_C1_witness :
    Live crossState
    ∧ ((tick crossState).levelComplete =
        ((scoresAfter crossState.score ((collectedObjs crossState.playerLane
          crossState.objects).map (fun o => o.operation))).any
            fun sc => decide (crossState.targetScore ≤ sc))
      ∧ (tick crossState).gameOver =
        ((scoresAfter crossState.score ((collectedObjs crossState.playerLane
          crossState.objects).map (fun o => o.operation))).any
            fun sc => decide (sc < -20))) :=
  ⟨⟨rfl, rfl, rfl⟩, claim_C1 crossState ⟨rfl, rfl, rfl⟩⟩

/-- Counterexample to claim C2: `bothState` is reachable from
`createInitialState` via two `addObject` calls and one `tick`, yet has
`gameOver` and `levelComplete` simultaneously true (the tick collected
`+10`, crossing the target 10, then `-31`, dropping the running score to
`-21 < -20`); moreover `addObject` still mutates the objects collection
of this terminal state. -/
theorem claim_C2_counterexample :
    Reachable bothState
    ∧ bothState.gameOver = true
    ∧ bothState.levelComplete = true
    ∧ (addObject bothState objPlus10).objects ≠ bothState.objects := by
  refine ⟨?_, ?_, ?_, ?_⟩
  · exact Reachable.step_tick (Reachable.step_add objMinus31
      (Reachable.step_add objPlus10 (Reachable.init (getLevelConfig 1))))
  · rw [bothState_eq]
  · rw [bothState_eq]
  · intro hobj
    have := congrArg List.length hobj
    simp [addObject] at this

/-- Claim C2 as amended: in every reachable state, once `gameOver` or
`levelComplete` is true, `tick` and `movePlayer` return the state
unchanged (so neither ever mutates score or objects of a terminal
state), and `addObject` never changes the score; but the two flags are
not mutually exclusive, and `addObject` appends its object even when the
state is terminal. -/
theorem claim_C2 (s : GameState) (_hr : Reachable s)
    (h : s.gameOver = true ∨ s.levelComplete = true) :
    tick s = s
    ∧ (∀ lane : Lane, movePlayer s lane = s)
    ∧ (∀ obj : FallingObject,
        (addObject s obj).score = s.score ∧
        (addObject s obj).objects = s.objects ++ [obj]) :=
  ⟨tick_of_not_live s (h.elim Or.inl (fun h2 => Or.inr (Or.inl h2))),
    fun lane => movePlayer_of_terminal s lane h,
    fun _ => ⟨rfl, rfl⟩⟩

/-- Witness for the amended C2 at the reachable doubly-terminal state. -/
theorem claim_C2_witness :
    (Reachable bothState ∧ (bothState.gameOver = true ∨ bothState.levelComplete = true))
    ∧ (tick bothState = bothState
      ∧ (∀ lane : Lane, movePlayer bothState lane = bothState)
      ∧ (∀ obj : FallingObject,
          (addObject bothState obj).score = bothState.score ∧
          (addObject bothState obj).objects = bothState.objects ++ [obj])) := by
  have hr : Reachable bothState :=
    Reachable.step_tick (Reachable.step_add objMinus31
      (Reachable.step_add objPlus10 (Reachable.init (getLevelConfig 1))))
  have hflag : bothState.gameOver = true := by rw [bothState_eq]
  exact ⟨⟨hr, Or.inl hflag⟩, claim_C2 bothState hr (Or.inl hflag)⟩

/-- Claim C6: in a live tick, exactly the colliding objects are
collected: the score is the in-order fold of their operations (each
applied exactly once), `objectsCollected` grows by exactly their number,
the surviving live set is exactly the non-collected, non-passed objects
moved down, and — ids being unique — no collected object's id survives
into the live set, so it can never be collected or missed again in a
later tick. -/
theorem claim_C6 (s : GameState) (h : Live s) :
    (tick s).score =
      ((collectedObjs s.playerLane s.objects).map (fun o => o.operation)).foldl
        applyOperation s.score
    ∧ (tick s).objectsCollected =
        s.objectsCollected + (collectedObjs s.playerLane s.objects).length
    ∧ (tick s).objects = (keptObjs s.playerLane s.objects).map moveDown
    ∧ ((s.objects.map (fun o => o.id)).Nodup →
        ∀ o ∈ s.objects, Collides s.playerLane o →
          ∀ o' ∈ (tick s).objects, o'.id ≠ o.id) := by
  rw [tick_eq_of_live s h]
  refine ⟨rfl, rfl, rfl, ?_⟩
  intro hnd o ho hc o' ho' heq
  obtain ⟨o'', ho'', rfl⟩ := List.mem_map.mp ho'
  have hmem : o'' ∈ s.objects ∧ KeptIn s.playerLane o'' := by
    have := List.mem_filter.mp ho''
    exact ⟨this.1, of_decide_eq_true this.2⟩
  have hid : o''.id = o.id := heq
  have : o'' = o := List.inj_on_of_nodup_map hnd hmem.1 ho hid
  exact hmem.2.1 (this ▸ hc)

/-- Witness for C6 at the concrete two-collision state. -/
theorem claim_C6_witness :
    Live crossState
    ∧ ((tick crossState).score =
        ((collectedObjs crossState.playerLane crossState.objects).map
          (fun o => o.operation)).foldl applyOperation crossState.score
      ∧ (tick crossState).objectsCollected =
          crossState.objectsCollected +
            (collectedObjs crossState.playerLane crossState.objects).length
      ∧ (tick crossState).objects =
          (keptObjs crossState.playerLane crossState.objects).map moveDown
      ∧ ((crossState.objects.map (fun o => o.id)).Nodup →
          ∀ o ∈ crossState.objects, Collides crossState.playerLane o →
            ∀ o' ∈ (tick crossState).objects, o'.id ≠ o.id)) :=
  ⟨⟨rfl, rfl, rfl⟩, claim_C6 crossState ⟨rfl, rfl, rfl⟩⟩

/-- Claim C10: an object whose `announced` flag is true is never
collected by `tick`, whatever its lane and position: it fails the
collision test, is not among the collected objects (whose operations
alone determine the score and the collected counter), and instead is
counted as missed in the tick where its advanced position passes `1.1`,
or else keeps falling with its position advanced by its speed. -/
theorem claim_C10 (s : GameState) (h : Live s) (o : FallingObject)
    (ho : o ∈ s.objects) (ha : o.announced = true) :
    ¬ Collides s.playerLane o
    ∧ o ∉ collectedObjs s.playerLane s.objects
    ∧ (tick s).score =
        ((collectedObjs s.playerLane s.objects).map (fun o => o.operation)).foldl
          applyOperation s.score
    ∧ (tick s).objectsCollected =
        s.objectsCollected + (collectedObjs s.playerLane s.objects).length
    ∧ (11/10 < o.y + o.speed →
        o ∈ missedObjs s.playerLane s.objects ∧
          (tick s).objectsMissed =
            s.objectsMissed + (missedObjs s.playerLane s.objects).length)
    ∧ (¬ (11/10 < o.y + o.speed) → moveDown o ∈ (tick s).objects) := by
  have hnc : ¬ Collides s.playerLane o := by
    intro hc
    have hfalse := hc.1
    rw [ha] at hfalse
    exact Bool.noConfusion hfalse
  refine ⟨hnc, ?_, ?_, ?_, ?_, ?_⟩
  · intro hmem
    exact hnc (of_decide_eq_true (List.mem_filter.mp hmem).2)
  · rw [tick_eq_of_live s h]
  · rw [tick_eq_of_live s h]
  · intro hp
    refine ⟨List.mem_filter.mpr ⟨ho, decide_eq_true ⟨hnc, hp⟩⟩, ?_⟩
    rw [tick_eq_of_live s h]
  · intro hnp
    rw [tick_eq_of_live s h]
    exact List.mem_map_of_mem moveDown
      (List.mem_filter.mpr ⟨ho, decide_eq_true ⟨hnc, hnp⟩⟩)

/-- Witness for C10 at the concrete announced object one step above the
collision band. -/
theorem claim_C10_witness :
    (Live ghostState ∧ ghostObj ∈ ghostState.objects ∧ ghostObj.announced = true)
    ∧ (¬ Collides ghostState.playerLane ghostObj
      ∧ ghostObj ∉ collectedObjs ghostState.playerLane ghostState.objects
      ∧ (tick ghostState).score =
          ((collectedObjs ghostState.playerLane ghostState.objects).map
            (fun o => o.operation)).foldl applyOperation ghostState.score
      ∧ (tick ghostState).objectsCollected =
          ghostState.objectsCollected +
            (collectedObjs ghostState.playerLane ghostState.objects).length
      ∧ (11/10 < ghostObj.y + ghostObj.speed →
          ghostObj ∈ missedObjs ghostState.playerLane ghostState.objects ∧
            (tick ghostState).objectsMissed =
              ghostState.objectsMissed +
                (missedObjs ghostState.playerLane ghostState.objects).length)
      ∧ (¬ (11/10 < ghostObj.y + ghostObj.speed) →
          moveDown ghostObj ∈ (tick ghostState).objects)) :=
  ⟨⟨⟨rfl, rfl, rfl⟩, List.mem_singleton.mpr rfl, rfl⟩,
    claim_C10 ghostState ⟨rfl, rfl, rfl⟩ ghostObj (List.mem_singleton.mpr rfl) rfl⟩

/-- Counterexample to claim C8: with a unit oscillator sample, 3 samples
and 1 fade sample, the left-panned buffer's full-envelope sample pair is
`(19660, 1966)`: the dominant channel exceeds 7 times the non-dominant
one (it is 10 times its pre-quantization value, per the gains 0.6 and
0.06), so the ratio is not approximately 6. -/
theorem claim_C8_counterexample :
    stereoSamples (fun _ => 1) 3 1 .left = [(0, 0), (19660, 1966), (19660, 1966)]
    ∧ (7 : Int) * 1966 < 19660 := by
  constructor
  · norm_num [stereoSamples, stereoSamplesPre, channelPair, quantize16,
      envelope, List.range_succ]
  · decide

/-- Claim C8 as amended: for every oscillator waveform, sample count and
fade length, the left-panned and right-panned buffers are channel-swapped
mirrors of each other (the 16-bit left/right values are exchanged at
every sample index), and in each buffer the dominant channel's
pre-quantization amplitude is exactly 10 times the non-dominant
channel's (gain 0.6 versus 0.06), not approximately 6 times. -/
theorem claim_C8 (rawSample : Nat → ℚ) (numSamples fadeSamples : Nat) :
    (stereoSamples rawSample numSamples fadeSamples .left).map Prod.swap =
      stereoSamples rawSample numSamples fadeSamples .right
    ∧ (∀ p ∈ stereoSamplesPre rawSample numSamples fadeSamples .left,
        p.1 = 10 * p.2)
    ∧ (∀ p ∈ stereoSamplesPre rawSample numSamples fadeSamples .right,
        p.2 = 10 * p.1) := by
  refine ⟨?_, ?_, ?_⟩
  · simp only [stereoSamples, stereoSamplesPre, List.map_map]
    rfl
  · intro p hp
    simp only [stereoSamplesPre, List.mem_map] at hp
    obtain ⟨i, _, rfl⟩ := hp
    simp only [channelPair]
    ring
  · intro p hp
    simp only [stereoSamplesPre, List.mem_map] at hp
    obtain ⟨i, _, rfl⟩ := hp
    simp only [channelPair]
    ring
